import Mathlib

/-!
Shallow embedding of the Govee BLE light component
(`custom_components/govee-ble-lights/light.py`): the frame codec
`_prepareSinglePacketData`, the capability flags, the command builder and
entity-state updates of `async_turn_on`, and the connection/write loop
(`_connectBluetooth` and the per-command send loop).

Machine bytes are modelled as `Nat` values below 256.  Python `int` values,
which may fall outside byte range, are modelled as `Int`; `cmd & 0xFF` on a
Python int is exactly Euclidean `cmd % 256`.
-/

/-- `class LedCommand(IntEnum)` (light.py lines 42–45), as Python ints. -/
def LedCommand.POWER : Int := 0x01

def LedCommand.BRIGHTNESS : Int := 0x04

def LedCommand.COLOR : Int := 0x05

/-- `class LedMode(IntEnum)` (light.py lines 48–52). -/
def LedMode.MANUAL : Int := 0x02

def LedMode.MICROPHONE : Int := 0x06

def LedMode.SCENES : Int := 0x05

def LedMode.SEGMENTS : Int := 0x15

/-- The `ValueError`s `_prepareSinglePacketData` can raise, in source order:
`invalidCommand` (`cmd` not an int, line 201) and `invalidPayload` (payload
not bytes / not a list of ints, line 204) are dynamic-type failures that the
typed embedding (`cmd : Int`, `payload : List Int`) makes unrepresentable;
`payloadTooLong` is line 206; `byteOutOfRange` is the `ValueError` that
`bytes(payload)` raises on line 209 when an element is outside `0..255`. -/
inductive PacketError where
  | invalidCommand
  | invalidPayload
  | payloadTooLong
  | byteOutOfRange
  deriving DecidableEq, Repr

/-- The accumulator loop of lines 212–214:
`checksum = 0; for b in frame: checksum ^= b`. -/
def xorChecksum (frame : List Nat) : Nat :=
  frame.foldl (fun acc b => acc ^^^ b) 0

/-- `GoveeBluetoothLight._prepareSinglePacketData(cmd, payload)`
(light.py lines 199–216), for a caller that passes an int `cmd` and a list
of ints `payload` (so the two `isinstance` checks pass).  Stages in source
order: the length check of line 205, then `bytes(payload)` (line 209) which
raises when an element is outside `0..255`, then
`frame = bytes([0x33, cmd & 0xFF]) + payload`, zero-padding to 19 bytes,
and the XOR checksum byte (`checksum & 0xFF` is `% 256`). -/
def prepareSinglePacketData (cmd : Int) (payload : List Int) :
    Except PacketError (List Nat) :=
  if payload.length > 17 then
    .error .payloadTooLong
  else if _h : ∀ x ∈ payload, 0 ≤ x ∧ x < 256 then
    let body := 0x33 :: (cmd % 256).toNat :: payload.map Int.toNat
    let frame := body ++ List.replicate (19 - body.length) 0
    .ok (frame ++ [xorChecksum frame % 256])
  else
    .error .byteOutOfRange

theorem xorChecksum_foldl_lt (l : List Nat) :
    ∀ a, a < 256 → (∀ x ∈ l, x < 256) →
      l.foldl (fun acc b => acc ^^^ b) a < 256 := by
  induction l with
  | nil => intro a ha _; exact ha
  | cons x xs ih =>
    intro a ha h
    simp only [List.foldl_cons]
    refine ih _ ?_ (fun y hy => h y (List.mem_cons_of_mem x hy))
    have hx : x < 256 := h x (List.mem_cons_self x xs)
    have h2 : (256 : Nat) = 2 ^ 8 := by norm_num
    rw [h2] at ha hx ⊢
    exact Nat.xor_lt_two_pow ha hx

theorem xorChecksum_lt (l : List Nat) (h : ∀ x ∈ l, x < 256) :
    xorChecksum l < 256 :=
  xorChecksum_foldl_lt l 0 (by norm_num) h

theorem prepareSinglePacketData_ok (cmd : Int) (payload : List Int)
    (hlen : payload.length ≤ 17) (hin : ∀ x ∈ payload, 0 ≤ x ∧ x < 256) :
    prepareSinglePacketData cmd payload =
      .ok ((0x33 :: (cmd % 256).toNat :: payload.map Int.toNat ++
              List.replicate (17 - payload.length) 0) ++
           [xorChecksum (0x33 :: (cmd % 256).toNat :: payload.map Int.toNat ++
              List.replicate (17 - payload.length) 0)]) := by
  have hcmd : (cmd % 256).toNat < 256 := by
    have h1 : cmd % 256 < 256 := Int.emod_lt_of_pos cmd (by norm_num)
    omega
  have hmem : ∀ x ∈ 0x33 :: (cmd % 256).toNat :: payload.map Int.toNat ++
      List.replicate (17 - payload.length) 0, x < 256 := by
    intro x hx
    simp only [List.mem_cons, List.mem_append, List.mem_map,
      List.mem_replicate] at hx
    rcases hx with (h1 | h1 | ⟨y, hy, h1⟩) | ⟨hne, h1⟩
    · omega
    · omega
    · have := hin y hy; omega
    · omega
  have hb : 19 - (0x33 :: (cmd % 256).toNat :: payload.map Int.toNat).length
      = 17 - payload.length := by
    simp only [List.length_cons, List.length_map]
    omega
  unfold prepareSinglePacketData
  rw [if_neg (by omega), dif_pos hin]
  simp only [hb]
  rw [Nat.mod_eq_of_lt (xorChecksum_lt _ hmem)]

/-- **C1.** For every command code and every payload that is a list of byte
values (each in `0..255`) of length at most 17, `_prepareSinglePacketData`
returns a frame of exactly 20 bytes whose last byte (byte 19) equals the XOR
of bytes 0 through 18. -/
theorem C1_frame_twenty_bytes_checksum (cmd : Int) (payload : List Int)
    (hlen : payload.length ≤ 17) (hin : ∀ x ∈ payload, 0 ≤ x ∧ x < 256) :
    ∃ f, prepareSinglePacketData cmd payload = .ok f ∧
      f.length = 20 ∧ f[19]? = some (xorChecksum (f.take 19)) := by
  refine ⟨_, prepareSinglePacketData_ok cmd payload hlen hin, ?_, ?_⟩
  · simp only [List.length_append, List.length_cons, List.length_map,
      List.length_replicate, List.length_nil]
    omega
  · have h19 : (0x33 :: (cmd % 256).toNat :: payload.map Int.toNat ++
        List.replicate (17 - payload.length) 0).length = 19 := by
      simp only [List.length_append, List.length_cons, List.length_map,
        List.length_replicate]
      omega
    rw [show (19 : Nat) = (0x33 :: (cmd % 256).toNat :: payload.map Int.toNat ++
        List.replicate (17 - payload.length) 0).length from h19.symm]
    rw [List.getElem?_concat_length, List.take_left]

/-- Witness for C1 at a concrete command and payload. -/
theorem C1_witness :
    ∃ f, prepareSinglePacketData 0x05 [0x02, 0xFF, 0x00, 0x00] = .ok f ∧
      f.length = 20 ∧ f[19]? = some (xorChecksum (f.take 19)) :=
  C1_frame_twenty_bytes_checksum 0x05 [0x02, 0xFF, 0x00, 0x00]
    (by decide) (by decide)

/-- **C6.** For every payload of length greater than 17,
`_prepareSinglePacketData` fails with the payload-length `ValueError`
(the spec's `InvalidPayload`) and produces no frame — in particular it never
silently truncates. -/
theorem C6_overlong_payload_rejected (cmd : Int) (payload : List Int)
    (hlen : payload.length > 17) :
    prepareSinglePacketData cmd payload = .error .payloadTooLong := by
  unfold prepareSinglePacketData
  rw [if_pos hlen]

/-- Witness for C6: an 18-byte payload is rejected. -/
theorem C6_witness :
    prepareSinglePacketData 0x01 (List.replicate 18 0) =
      .error .payloadTooLong :=
  C6_overlong_payload_rejected 0x01 (List.replicate 18 0) (by decide)

/-- **C10.** The codec's validation only checks dynamic types and length:
for every payload of length ≤ 17 whose elements all lie in `0..255` it
succeeds, while a list containing an int outside `0..255` passes the
validation checks and then fails at the `bytes(payload)` conversion step
(a distinct error from the validation `ValueError`s). -/
theorem C10_validation_checks_types_only (cmd : Int) (payload : List Int)
    (hlen : payload.length ≤ 17) :
    ((∀ x ∈ payload, 0 ≤ x ∧ x < 256) →
        ∃ f, prepareSinglePacketData cmd payload = .ok f) ∧
    ((¬ ∀ x ∈ payload, 0 ≤ x ∧ x < 256) →
        prepareSinglePacketData cmd payload = .error .byteOutOfRange) := by
  constructor
  · intro hin
    exact ⟨_, prepareSinglePacketData_ok cmd payload hlen hin⟩
  · intro hbad
    unfold prepareSinglePacketData
    rw [if_neg (by omega), dif_neg hbad]

/-- Witness for C10: an in-range payload succeeds, and a payload containing
300 passes validation but fails at byte conversion. -/
theorem C10_witness :
    (∃ f, prepareSinglePacketData 0x01 [5] = .ok f) ∧
    prepareSinglePacketData 0x01 [300] = .error .byteOutOfRange :=
  ⟨(C10_validation_checks_types_only 0x01 [5] (by decide)).1 (by decide),
   (C10_validation_checks_types_only 0x01 [300] (by decide)).2 (by decide)⟩

/-- Per-model capability flags, resolved once at construction
(light.py lines 81–82: `_is_segmented = model in SEGMENTED_MODELS`,
`_use_percent = model in PERCENT_MODELS`). -/
structure Capabilities where
  isSegmented : Bool
  usePercent : Bool
  deriving DecidableEq, Repr

/-- The mutable entity attributes `async_turn_on` assigns
(`self._state`, `self._brightness`, `self._rgb_color`;
light.py lines 84–86, 135, 144, 155). -/
structure EntityState where
  state : Option Bool
  brightness : Option Nat
  rgbColor : Option (Nat × Nat × Nat)
  deriving DecidableEq, Repr

/-- The `ATTR_EFFECT` value of a turn-on call, abstracting the string:
`absent` when the key is missing, `unparsed` when the string is falsy or
`EFFECT_PARSE` finds no `[a/b/c/d]` group (both branches silently add no
frames, lines 159–161), `indexes` for a parsed four-integer index path
(the regex digits are non-negative, so `Nat` indices are faithful). -/
inductive EffectField where
  | absent
  | unparsed
  | indexes (i0 i1 i2 i3 : Nat)
  deriving DecidableEq, Repr

/-- The keyword arguments of one `async_turn_on` call that the code reads
(`ATTR_BRIGHTNESS`, `ATTR_RGB_COLOR`, `ATTR_EFFECT`). -/
structure Intent where
  brightness : Option Nat
  rgbColor : Option (Nat × Nat × Nat)
  effect : EffectField
  deriving DecidableEq, Repr

/-- One leaf of the per-model effect catalog: `specialEffect` entry with its
base64-decoded `scenceParam` blob (light.py lines 171, 176). -/
structure SpecialEffect where
  scenceParam : List Nat

/-- `lightEffects` entry of the catalog. -/
structure LightEffect where
  specialEffect : List SpecialEffect

/-- `scenes` entry of the catalog. -/
structure Scene where
  lightEffects : List LightEffect

/-- `categories` entry of the catalog. -/
structure Category where
  scenes : List Scene

/-- The per-model JSON effect catalog, `json_data['data']` (line 168). -/
structure Catalog where
  categories : List Category

/-- Errors surfacing from `async_turn_on` / `_connectBluetooth` /
the write loop.  `packet` wraps a codec `ValueError`; `effectNotFound` is
the `IndexError` of the catalog lookups (lines 168–171; the spec calls it
`EffectNotFound`); `connectFailed` is the error the spec expects when all
connection attempts fail — the code never produces it; `noneTypeError` is
the `AttributeError` raised when the caller invokes `write_gatt_char` on
the `None` that `_connectBluetooth` returns after exhausting its attempts;
`writeFailed` models a failing GATT write. -/
inductive GoveeError where
  | packet (e : PacketError)
  | effectNotFound
  | connectFailed
  | noneTypeError
  | writeFailed
  deriving DecidableEq, Repr

/-- Line 140: `brightnessPercent = int(brightness * 100 / 255)`.  For the
0–255 brightness domain the float product `b * 100` (≤ 25500) is exact and
the quotient is never within rounding distance of a different integer, so
`int(...)` truncation coincides with `Nat` floor division. -/
def brightnessPercent (brightness : Nat) : Nat :=
  brightness * 100 / 255

/-- Lines 139–143: the Brightness frame of `async_turn_on`, scaled to a
percentage on `_use_percent` models. -/
def brightnessCommand (usePercent : Bool) (brightness : Nat) :
    Except PacketError (List Nat) :=
  if usePercent then
    prepareSinglePacketData LedCommand.BRIGHTNESS
      [(brightnessPercent brightness : Int)]
  else
    prepareSinglePacketData LedCommand.BRIGHTNESS [(brightness : Int)]

/-- Lines 148–154: the Color frame of `async_turn_on`; segmented models get
the `LedMode.SEGMENTS` layout with fixed trailing constants, others the
`LedMode.MANUAL` flat RGB layout. -/
def colorCommand (isSegmented : Bool) (red green blue : Nat) :
    Except PacketError (List Nat) :=
  if isSegmented then
    prepareSinglePacketData LedCommand.COLOR
      [LedMode.SEGMENTS, 0x01, (red : Int), (green : Int), (blue : Int),
       0x00, 0x00, 0x00, 0x00, 0x00, 0xFF, 0x7F]
  else
    prepareSinglePacketData LedCommand.COLOR
      [LedMode.MANUAL, (red : Int), (green : Int), (blue : Int)]

/-- The chained subscripts of lines 168–171:
`categories[i0]['scenes'][i1]['lightEffects'][i2]['specialEffect'][i3]`,
returning the decoded blob; any out-of-range index gives `none`
(Python raises `IndexError`). -/
def lookupEffect (catalog : Catalog) (i0 i1 i2 i3 : Nat) :
    Option (List Nat) := do
  let category ← catalog.categories[i0]?
  let scene ← category.scenes[i1]?
  let lightEffect ← scene.lightEffects[i2]?
  let specialEffect ← lightEffect.specialEffect[i3]?
  pure specialEffect.scenceParam

/-- Lines 137–144 as one step: append the Brightness frame (if the intent
carries a brightness) and then record `self._brightness`.  On a codec
error, the assignment of line 144 has not yet happened. -/
def stepBrightness (usePercent : Bool) (b : Option Nat) (st : EntityState)
    (cmds : List (List Nat)) :
    EntityState × Except GoveeError (List (List Nat)) :=
  match b with
  | none => (st, .ok cmds)
  | some v =>
    match brightnessCommand usePercent v with
    | .error e => (st, .error (.packet e))
    | .ok c => ({ st with brightness := some v }, .ok (cmds ++ [c]))

/-- Lines 146–155 as one step: append the Color frame (if the intent
carries an RGB color) and then record `self._rgb_color`. -/
def stepColor (isSegmented : Bool) (rgb : Option (Nat × Nat × Nat))
    (st : EntityState) (cmds : List (List Nat)) :
    EntityState × Except GoveeError (List (List Nat)) :=
  match rgb with
  | none => (st, .ok cmds)
  | some (r, g, b) =>
    match colorCommand isSegmented r g b with
    | .error e => (st, .error (.packet e))
    | .ok c => ({ st with rgbColor := some (r, g, b) }, .ok (cmds ++ [c]))

/-- Lines 157–177 as one step: resolve the effect index path and append the
frames `prepareMultiplePacketsData(0xa3, [0x02], blob)` yields.  That
function lives in `govee_utils.py` (not part of this component's core
source), so it is kept abstract as `pm`; no claim depends on its output. -/
def stepEffect (catalog : Catalog) (pm : List Nat → List (List Nat))
    (eff : EffectField) (st : EntityState) (cmds : List (List Nat)) :
    EntityState × Except GoveeError (List (List Nat)) :=
  match eff with
  | .absent => (st, .ok cmds)
  | .unparsed => (st, .ok cmds)
  | .indexes i0 i1 i2 i3 =>
    match lookupEffect catalog i0 i1 i2 i3 with
    | none => (st, .error .effectNotFound)
    | some blob => (st, .ok (cmds ++ pm blob))

/-- Lines 133–177 of `async_turn_on`: build the command list and perform
the entity-state assignments, in source order — Power-on frame (line 134),
`self._state = True` (line 135), Brightness, Color, Effect. -/
def buildCommandsAndState (caps : Capabilities) (catalog : Catalog)
    (pm : List Nat → List (List Nat)) (intent : Intent) (s0 : EntityState) :
    EntityState × Except GoveeError (List (List Nat)) :=
  match prepareSinglePacketData LedCommand.POWER [0x1] with
  | .error e => (s0, .error (.packet e))
  | .ok powerCmd =>
    let st1 := { s0 with state := some true }
    match stepBrightness caps.usePercent intent.brightness st1 [powerCmd] with
    | (st2, .error e) => (st2, .error e)
    | (st2, .ok cmds2) =>
      match stepColor caps.isSegmented intent.rgbColor st2 cmds2 with
      | (st3, .error e) => (st3, .error e)
      | (st3, .ok cmds3) => stepEffect catalog pm intent.effect st3 cmds3

/-- The environment an intent runs against: `connectOutcomes n` is what the
`n`-th call (globally counted) to
`bleak_retry_connector.establish_connection` does — `some link` for a
successful connection with handle `link`, `none` for a raised exception;
`writeOk n` is whether the `n`-th `write_gatt_char` call completes; `pm` is
`prepareMultiplePacketsData(0xa3, [0x02], ·)` from `govee_utils.py`. -/
structure Env where
  connectOutcomes : Nat → Option Nat
  writeOk : Nat → Bool
  pm : List Nat → List (List Nat)

/-- `GoveeBluetoothLight._connectBluetooth` (lines 189–197), the
`for _ in range(3)` loop unrolled: each iteration tries one
`establish_connection` call, returns the client on success and swallows the
exception (`except Exception: continue`) otherwise.  The function catches
every attempt exception itself, so it always returns normally:
`.ok (some link)` when an attempt succeeds, `.ok none` — Python's implicit
`return None` after the loop — when all 3 attempts fail.  The `Except`
layer records that no exception escapes; `.error` is never produced.
Returns the result together with the next unused global attempt number. -/
def connectBluetooth (outcomes : Nat → Option Nat) (ctr : Nat) :
    Except GoveeError (Option Nat) × Nat :=
  match outcomes ctr with
  | some link => (.ok (some link), ctr + 1)
  | none =>
    match outcomes (ctr + 1) with
    | some link => (.ok (some link), ctr + 2)
    | none =>
      match outcomes (ctr + 2) with
      | some link => (.ok (some link), ctr + 3)
      | none => (.ok none, ctr + 3)

/-- One `write_gatt_char` call that was actually performed: the link handle
it went over and the frame it carried. -/
structure WriteEvent where
  link : Nat
  frame : List Nat
  deriving DecidableEq, Repr

/-- The delivery loop of lines 179–181:
`for command in commands: client = await self._connectBluetooth();
await client.write_gatt_char(UUID_CONTROL_CHARACTERISTIC, command, False)`.
Note the loop calls `_connectBluetooth` afresh for **each** frame.  Writing
on a `None` client raises `AttributeError` (`noneTypeError`); a failing
write raises and aborts the remaining frames.  Returns the writes performed
and the error that aborted the loop, if any. -/
def sendLoop (env : Env) :
    List (List Nat) → Nat → Nat → List WriteEvent × Option GoveeError
  | [], _, _ => ([], none)
  | cmd :: rest, cctr, wctr =>
    match connectBluetooth env.connectOutcomes cctr with
    | (.ok (some link), cctr2) =>
      if env.writeOk wctr then
        let r := sendLoop env rest cctr2 (wctr + 1)
        (⟨link, cmd⟩ :: r.1, r.2)
      else ([], some .writeFailed)
    | (.ok none, _) => ([], some .noneTypeError)
    | (.error e, _) => ([], some e)

/-- `GoveeBluetoothLight.async_turn_on` (lines 133–181): build the frames
and update the entity attributes (lines 133–177), then deliver the frames
through the loop of lines 179–181.  Result: the entity state after the
call, the writes performed, and the exception that escaped, if any. -/
def asyncTurnOn (env : Env) (caps : Capabilities) (catalog : Catalog)
    (intent : Intent) (s0 : EntityState) :
    EntityState × List WriteEvent × Option GoveeError :=
  match buildCommandsAndState caps catalog env.pm intent s0 with
  | (st, .error e) => (st, [], some e)
  | (st, .ok cmds) =>
    let r := sendLoop env cmds 0 0
    (st, r.1, r.2)

/-- `GoveeBluetoothLight.async_turn_off` (lines 183–187): connect once,
write the Power-off frame, then set `self._state = False`; on any failure
the state assignment of line 187 is not reached. -/
def asyncTurnOff (env : Env) (s0 : EntityState) :
    EntityState × List WriteEvent × Option GoveeError :=
  match connectBluetooth env.connectOutcomes 0 with
  | (.ok (some link), _) =>
    match prepareSinglePacketData LedCommand.POWER [0x0] with
    | .ok cmd =>
      if env.writeOk 0 then
        ({ s0 with state := some false }, [⟨link, cmd⟩], none)
      else (s0, [], some .writeFailed)
    | .error e => (s0, [], some (.packet e))
  | (.ok none, _) => (s0, [], some .noneTypeError)
  | (.error e, _) => (s0, [], some e)

/-- The Power-on frame `_prepareSinglePacketData(LedCommand.POWER, [0x1])`
of line 134, as concrete bytes. -/
def powerOnFrame : List Nat :=
  [0x33, 0x01, 0x01, 0, 0, 0, 0, 0, 0, 0, 0, 0, 0, 0, 0, 0, 0, 0, 0, 0x33]

theorem prepare_power_on :
    prepareSinglePacketData LedCommand.POWER [0x1] = .ok powerOnFrame := by
  rfl

theorem brightnessCommand_ok (u : Bool) (v : Nat) (hv : v ≤ 255) :
    ∃ f, brightnessCommand u v = .ok f := by
  cases u <;> simp only [brightnessCommand, Bool.false_eq_true, if_false,
    if_true]
  · exact ⟨_, prepareSinglePacketData_ok _ _ (by simp)
      (by intro x hx; simp only [List.mem_cons, List.not_mem_nil,
            or_false] at hx; subst hx; omega)⟩
  · exact ⟨_, prepareSinglePacketData_ok _ _ (by simp)
      (by intro x hx; simp only [List.mem_cons, List.not_mem_nil,
            or_false] at hx; subst hx
          simp only [brightnessPercent]; omega)⟩

theorem colorCommand_ok (seg : Bool) (r g b : Nat) (hr : r ≤ 255)
    (hg : g ≤ 255) (hb : b ≤ 255) :
    ∃ f, colorCommand seg r g b = .ok f := by
  cases seg <;> simp only [colorCommand, Bool.false_eq_true, if_false,
    if_true]
  · exact ⟨_, prepareSinglePacketData_ok _ _ (by simp)
      (by intro x hx; fin_cases hx <;> first | decide | omega)⟩
  · exact ⟨_, prepareSinglePacketData_ok _ _ (by simp)
      (by intro x hx; fin_cases hx <;> first | decide | omega)⟩

set_option maxRecDepth 4096 in
/-- **C7.** On a `usesPercentBrightness` model the level placed in the
Brightness frame payload (frame byte 2) equals the integer truncation of
`level * 100 / 255`; input 255 maps to 100, input 0 to 0, and the scaling
is monotone non-decreasing. -/
theorem C7_percent_brightness_scaling (v a b : Nat) (hv : v ≤ 255)
    (hab : a ≤ b) :
    (∃ f, brightnessCommand true v = .ok f) ∧
    (∀ f, brightnessCommand true v = .ok f →
        f[2]? = some (brightnessPercent v)) ∧
    brightnessPercent 255 = 100 ∧ brightnessPercent 0 = 0 ∧
    brightnessPercent a ≤ brightnessPercent b := by
  have h := prepareSinglePacketData_ok LedCommand.BRIGHTNESS
    [(brightnessPercent v : Int)] (by simp)
    (by intro x hx
        simp only [List.mem_cons, List.not_mem_nil, or_false] at hx
        subst hx
        simp only [brightnessPercent]; omega)
  have hbc : brightnessCommand true v =
      prepareSinglePacketData LedCommand.BRIGHTNESS
        [(brightnessPercent v : Int)] := by
    unfold brightnessCommand
    rw [if_pos rfl]
  refine ⟨⟨_, hbc.trans h⟩, ?_, by decide, by decide, ?_⟩
  · intro f hf
    rw [hbc, h] at hf
    injection hf with hf
    subst hf
    rfl
  · simp only [brightnessPercent]
    omega

/-- Witness for C7 at input 200 (and 3 ≤ 7 for monotonicity). -/
theorem C7_witness :
    (∃ f, brightnessCommand true 200 = .ok f) ∧
    (∀ f, brightnessCommand true 200 = .ok f →
        f[2]? = some (brightnessPercent 200)) ∧
    brightnessPercent 255 = 100 ∧ brightnessPercent 0 = 0 ∧
    brightnessPercent 3 ≤ brightnessPercent 7 :=
  C7_percent_brightness_scaling 200 3 7 (by decide) (by decide)

/-- **C8.** On a segmented model the single Color frame has command code
`COLOR` (0x05) and payload exactly
`[SEGMENTS (0x15), 0x01, r, g, b, 0, 0, 0, 0, 0, 0xFF, 0x7F]`, zero-padded
to 17 payload bytes and then checksummed, with the trailing constants fixed
for every intent; at RGB (10, 20, 30) the frame is the explicit byte list
with checksum 0xA2. -/
theorem C8_segmented_color_frame (r g b : Nat) (hr : r ≤ 255)
    (hg : g ≤ 255) (hb : b ≤ 255) :
    colorCommand true r g b =
      .ok ([0x33, 0x05, 0x15, 0x01, r, g, b, 0, 0, 0, 0, 0, 0xFF, 0x7F,
             0, 0, 0, 0, 0] ++
           [xorChecksum [0x33, 0x05, 0x15, 0x01, r, g, b, 0, 0, 0, 0, 0,
             0xFF, 0x7F, 0, 0, 0, 0, 0]]) ∧
    colorCommand true 10 20 30 =
      .ok [0x33, 0x05, 0x15, 0x01, 10, 20, 30, 0, 0, 0, 0, 0, 0xFF, 0x7F,
           0, 0, 0, 0, 0, 0xA2] := by
  refine ⟨?_, by rfl⟩
  have h := prepareSinglePacketData_ok LedCommand.COLOR
    [LedMode.SEGMENTS, 0x01, (r : Int), (g : Int), (b : Int),
     0x00, 0x00, 0x00, 0x00, 0x00, 0xFF, 0x7F] (by simp)
    (by intro x hx; fin_cases hx <;> first | decide | omega)
  unfold colorCommand
  rw [if_pos rfl, h]
  norm_num [LedCommand.COLOR, LedMode.SEGMENTS, Int.toNat_natCast,
    List.replicate_succ]
  simp [show Int.toNat 5 = 5 from rfl, show Int.toNat 21 = 21 from rfl,
    show Int.toNat 255 = 255 from rfl, show Int.toNat 127 = 127 from rfl]

/-- Witness for C8 at RGB (10, 20, 30). -/
theorem C8_witness :
    colorCommand true 10 20 30 =
      .ok ([0x33, 0x05, 0x15, 0x01, 10, 20, 30, 0, 0, 0, 0, 0, 0xFF, 0x7F,
             0, 0, 0, 0, 0] ++
           [xorChecksum [0x33, 0x05, 0x15, 0x01, 10, 20, 30, 0, 0, 0, 0, 0,
             0xFF, 0x7F, 0, 0, 0, 0, 0]]) ∧
    colorCommand true 10 20 30 =
      .ok [0x33, 0x05, 0x15, 0x01, 10, 20, 30, 0, 0, 0, 0, 0, 0xFF, 0x7F,
           0, 0, 0, 0, 0, 0xA2] :=
  C8_segmented_color_frame 10 20 30 (by decide) (by decide) (by decide)

theorem stepBrightness_none (u : Bool) (st : EntityState)
    (cmds : List (List Nat)) :
    stepBrightness u none st cmds = (st, .ok cmds) := rfl

theorem stepBrightness_some {u : Bool} {v : Nat} {c : List Nat}
    (h : brightnessCommand u v = .ok c) (st : EntityState)
    (cmds : List (List Nat)) :
    stepBrightness u (some v) st cmds =
      ({ st with brightness := some v }, .ok (cmds ++ [c])) := by
  simp [stepBrightness, h]

theorem stepColor_none (seg : Bool) (st : EntityState)
    (cmds : List (List Nat)) :
    stepColor seg none st cmds = (st, .ok cmds) := rfl

theorem stepColor_some {seg : Bool} {r g b : Nat} {c : List Nat}
    (h : colorCommand seg r g b = .ok c) (st : EntityState)
    (cmds : List (List Nat)) :
    stepColor seg (some (r, g, b)) st cmds =
      ({ st with rgbColor := some (r, g, b) }, .ok (cmds ++ [c])) := by
  simp [stepColor, h]

theorem stepEffect_fst (catalog : Catalog) (pm : List Nat → List (List Nat))
    (eff : EffectField) (st : EntityState) (cmds : List (List Nat)) :
    (stepEffect catalog pm eff st cmds).1 = st := by
  cases eff with
  | absent => rfl
  | unparsed => rfl
  | indexes i0 i1 i2 i3 =>
    show (match lookupEffect catalog i0 i1 i2 i3 with
      | none => (st, Except.error GoveeError.effectNotFound)
      | some blob => (st, Except.ok (cmds ++ pm blob))).1 = st
    cases lookupEffect catalog i0 i1 i2 i3 <;> rfl

theorem stepEffect_noidx (catalog : Catalog)
    (pm : List Nat → List (List Nat)) (eff : EffectField) (st : EntityState)
    (cmds : List (List Nat))
    (h : ∀ i0 i1 i2 i3, eff ≠ EffectField.indexes i0 i1 i2 i3) :
    stepEffect catalog pm eff st cmds = (st, .ok cmds) := by
  cases eff with
  | absent => rfl
  | unparsed => rfl
  | indexes i0 i1 i2 i3 => exact absurd rfl (h i0 i1 i2 i3)

theorem stepEffect_idx_none {catalog : Catalog} {i0 i1 i2 i3 : Nat}
    (h : lookupEffect catalog i0 i1 i2 i3 = none)
    (pm : List Nat → List (List Nat)) (st : EntityState)
    (cmds : List (List Nat)) :
    stepEffect catalog pm (.indexes i0 i1 i2 i3) st cmds =
      (st, .error .effectNotFound) := by
  simp [stepEffect, h]

theorem stepEffect_idx_some {catalog : Catalog} {i0 i1 i2 i3 : Nat}
    {blob : List Nat} (h : lookupEffect catalog i0 i1 i2 i3 = some blob)
    (pm : List Nat → List (List Nat)) (st : EntityState)
    (cmds : List (List Nat)) :
    stepEffect catalog pm (.indexes i0 i1 i2 i3) st cmds =
      (st, .ok (cmds ++ pm blob)) := by
  simp [stepEffect, h]

theorem buildCommandsAndState_eq (caps : Capabilities) (catalog : Catalog)
    (pm : List Nat → List (List Nat)) (intent : Intent) (s0 : EntityState) :
    buildCommandsAndState caps catalog pm intent s0 =
      match stepBrightness caps.usePercent intent.brightness
          { s0 with state := some true } [powerOnFrame] with
      | (st2, .error e) => (st2, .error e)
      | (st2, .ok cmds2) =>
        match stepColor caps.isSegmented intent.rgbColor st2 cmds2 with
        | (st3, .error e) => (st3, .error e)
        | (st3, .ok cmds3) => stepEffect catalog pm intent.effect st3 cmds3
    := by
  unfold buildCommandsAndState
  rw [prepare_power_on]

theorem build_unfold (caps : Capabilities) (catalog : Catalog)
    (pm : List Nat → List (List Nat)) (intent : Intent) (s0 : EntityState)
    (hb : ∀ v ∈ intent.brightness, v ≤ 255)
    (hc : ∀ c ∈ intent.rgbColor, c.1 ≤ 255 ∧ c.2.1 ≤ 255 ∧ c.2.2 ≤ 255) :
    ∃ bf cf,
      ((intent.brightness = none ∧ bf = ([] : List (List Nat))) ∨
        (∃ v c, intent.brightness = some v ∧
          brightnessCommand caps.usePercent v = .ok c ∧ bf = [c])) ∧
      ((intent.rgbColor = none ∧ cf = ([] : List (List Nat))) ∨
        (∃ r g b c, intent.rgbColor = some (r, g, b) ∧
          colorCommand caps.isSegmented r g b = .ok c ∧ cf = [c])) ∧
      (buildCommandsAndState caps catalog pm intent s0).1 =
        ⟨some true, intent.brightness.elim s0.brightness some,
          intent.rgbColor.elim s0.rgbColor some⟩ ∧
      ((∀ i0 i1 i2 i3, intent.effect ≠ .indexes i0 i1 i2 i3) →
        (buildCommandsAndState caps catalog pm intent s0).2 =
          .ok (powerOnFrame :: (bf ++ cf))) ∧
      (∀ i0 i1 i2 i3, intent.effect = .indexes i0 i1 i2 i3 →
        (lookupEffect catalog i0 i1 i2 i3 = none →
          (buildCommandsAndState caps catalog pm intent s0).2 =
            .error .effectNotFound) ∧
        (∀ blob, lookupEffect catalog i0 i1 i2 i3 = some blob →
          (buildCommandsAndState caps catalog pm intent s0).2 =
            .ok (powerOnFrame :: ((bf ++ cf) ++ pm blob)))) := by
  obtain ⟨b, rgb, eff⟩ := intent
  have key : ∃ bf cf,
      ((b = none ∧ bf = ([] : List (List Nat))) ∨
        (∃ v c, b = some v ∧ brightnessCommand caps.usePercent v = .ok c ∧
          bf = [c])) ∧
      ((rgb = none ∧ cf = ([] : List (List Nat))) ∨
        (∃ r g bl c, rgb = some (r, g, bl) ∧
          colorCommand caps.isSegmented r g bl = .ok c ∧ cf = [c])) ∧
      buildCommandsAndState caps catalog pm ⟨b, rgb, eff⟩ s0 =
        stepEffect catalog pm eff
          ⟨some true, b.elim s0.brightness some, rgb.elim s0.rgbColor some⟩
          (powerOnFrame :: (bf ++ cf)) := by
    cases b with
    | none =>
      cases rgb with
      | none =>
        refine ⟨[], [], Or.inl ⟨rfl, rfl⟩, Or.inl ⟨rfl, rfl⟩, ?_⟩
        simp [buildCommandsAndState_eq, stepBrightness_none, stepColor_none]
      | some t =>
        obtain ⟨r, g, bl⟩ := t
        obtain ⟨cc, hcc⟩ := colorCommand_ok caps.isSegmented r g bl
          (hc (r, g, bl) rfl).1 (hc (r, g, bl) rfl).2.1
          (hc (r, g, bl) rfl).2.2
        refine ⟨[], [cc], Or.inl ⟨rfl, rfl⟩,
          Or.inr ⟨r, g, bl, cc, rfl, hcc, rfl⟩, ?_⟩
        simp [buildCommandsAndState_eq, stepBrightness_none,
          stepColor_some hcc]
    | some v =>
      obtain ⟨bc, hbc⟩ := brightnessCommand_ok caps.usePercent v (hb v rfl)
      cases rgb with
      | none =>
        refine ⟨[bc], [], Or.inr ⟨v, bc, rfl, hbc, rfl⟩,
          Or.inl ⟨rfl, rfl⟩, ?_⟩
        simp [buildCommandsAndState_eq, stepBrightness_some hbc,
          stepColor_none]
      | some t =>
        obtain ⟨r, g, bl⟩ := t
        obtain ⟨cc, hcc⟩ := colorCommand_ok caps.isSegmented r g bl
          (hc (r, g, bl) rfl).1 (hc (r, g, bl) rfl).2.1
          (hc (r, g, bl) rfl).2.2
        refine ⟨[bc], [cc], Or.inr ⟨v, bc, rfl, hbc, rfl⟩,
          Or.inr ⟨r, g, bl, cc, rfl, hcc, rfl⟩, ?_⟩
        simp [buildCommandsAndState_eq, stepBrightness_some hbc,
          stepColor_some hcc]
  obtain ⟨bf, cf, hbf, hcf, hkey⟩ := key
  refine ⟨bf, cf, hbf, hcf, ?_, ?_, ?_⟩
  · rw [hkey, stepEffect_fst]
  · intro hne
    rw [hkey, stepEffect_noidx _ _ _ _ _ hne]
  · intro i0 i1 i2 i3 heq
    subst heq
    constructor
    · intro hlook
      rw [hkey, stepEffect_idx_none hlook]
    · intro blob hlook
      rw [hkey, stepEffect_idx_some hlook]
      simp [List.append_assoc]

/-- Environment in which every connection attempt fails, every write
succeeds, and the splitter is unused. -/
def envAllFail : Env := ⟨fun _ => none, fun _ => true, fun _ => []⟩

/-- Environment in which the `n`-th connection attempt succeeds and hands
back a fresh link handle `n`, every write succeeds, and the splitter is
unused. -/
def envDistinctLinks : Env := ⟨fun n => some n, fun _ => true, fun _ => []⟩

/-- **C2** counterexample: when all 3 attempts fail, `_connectBluetooth`
returns `None` normally (Python's implicit return after the loop) — the
result is `.ok none`, not the `.error .connectFailed` the claim's
"surfaces a `ConnectFailed` error to the caller" would require. -/
theorem C2_counterexample_returns_none :
    (connectBluetooth envAllFail.connectOutcomes 0).1 = .ok none ∧
    (Except.ok none : Except GoveeError (Option Nat)) ≠
      .error .connectFailed :=
  ⟨rfl, fun h => Except.noConfusion h⟩

/-- **C2** (amended). `_connectBluetooth` attempts to connect up to 3
times, swallowing each attempt's failure: if attempts 1 and 2 fail and
attempt 3 succeeds, that attempt's client is returned after exactly 3
attempts; if all 3 attempts fail the function returns `None` normally
(no `ConnectFailed`-style error is raised by it — the failure surfaces
only later, when the caller invokes `write_gatt_char` on the `None`
client). -/
theorem C2_retry_three_attempts (outcomes : Nat → Option Nat)
    (ctr l : Nat) :
    (outcomes ctr = none → outcomes (ctr + 1) = none →
      outcomes (ctr + 2) = some l →
      connectBluetooth outcomes ctr = (.ok (some l), ctr + 3)) ∧
    (outcomes ctr = none → outcomes (ctr + 1) = none →
      outcomes (ctr + 2) = none →
      connectBluetooth outcomes ctr = (.ok none, ctr + 3)) := by
  constructor <;> intro h0 h1 h2 <;>
    simp [connectBluetooth, h0, h1, h2]

/-- Witness for the amended C2: success on the third attempt yields link 7
after exactly 3 attempts; three failures yield the `None` return. -/
theorem C2_witness :
    connectBluetooth (fun n => if n = 2 then some 7 else none) 0 =
      (.ok (some 7), 3) ∧
    connectBluetooth envAllFail.connectOutcomes 0 = (.ok none, 3) :=
  ⟨(C2_retry_three_attempts (fun n => if n = 2 then some 7 else none) 0 7).1
      rfl rfl rfl,
   (C2_retry_three_attempts envAllFail.connectOutcomes 0 0).2 rfl rfl rfl⟩

/-- **C3.** A turn-on intent whose effect reference carries an
out-of-range category index fails with the catalog-lookup error
(`IndexError` at line 168; the spec's `EffectNotFound`): the exception
aborts `async_turn_on` before its delivery loop, so zero frames are
written and the physical device state is unchanged.  (The entity
attributes were already assigned — see C9.) -/
theorem C3_effect_out_of_range_no_frames (env : Env) (caps : Capabilities)
    (catalog : Catalog) (intent : Intent) (s0 : EntityState)
    (i0 i1 i2 i3 : Nat) (heff : intent.effect = .indexes i0 i1 i2 i3)
    (hcat : catalog.categories.length ≤ i0)
    (hb : ∀ v ∈ intent.brightness, v ≤ 255)
    (hc : ∀ c ∈ intent.rgbColor, c.1 ≤ 255 ∧ c.2.1 ≤ 255 ∧ c.2.2 ≤ 255) :
    (asyncTurnOn env caps catalog intent s0).2.1 = [] ∧
    (asyncTurnOn env caps catalog intent s0).2.2 =
      some .effectNotFound := by
  obtain ⟨bf, cf, -, -, -, -, hidx⟩ :=
    build_unfold caps catalog env.pm intent s0 hb hc
  have hlook : lookupEffect catalog i0 i1 i2 i3 = none := by
    unfold lookupEffect
    rw [List.getElem?_eq_none hcat]
    rfl
  have herr := (hidx i0 i1 i2 i3 heff).1 hlook
  rcases hbuild : buildCommandsAndState caps catalog env.pm intent s0
    with ⟨st, r⟩
  rw [hbuild] at herr
  have hr : r = Except.error GoveeError.effectNotFound := herr
  subst hr
  unfold asyncTurnOn
  rw [hbuild]
  exact ⟨rfl, rfl⟩

/-- Witness for C3: category index 5 against an empty catalog. -/
theorem C3_witness :
    (asyncTurnOn envDistinctLinks ⟨false, false⟩ ⟨[]⟩
        ⟨none, none, .indexes 5 0 0 0⟩ ⟨none, none, none⟩).2.1 = [] ∧
    (asyncTurnOn envDistinctLinks ⟨false, false⟩ ⟨[]⟩
        ⟨none, none, .indexes 5 0 0 0⟩ ⟨none, none, none⟩).2.2 =
      some .effectNotFound :=
  C3_effect_out_of_range_no_frames envDistinctLinks ⟨false, false⟩ ⟨[]⟩
    ⟨none, none, .indexes 5 0 0 0⟩ ⟨none, none, none⟩ 5 0 0 0 rfl
    (by decide) (by simp) (by simp)

set_option maxRecDepth 4096 in
/-- **C4.** `async_turn_on` builds its frames in the fixed order Power-on,
then Brightness, then Color, then Effect frames; in particular, for an
intent with brightness 128 and color (255, 0, 0) on a non-segmented,
non-percent model it builds exactly 3 frames: Power-on, Brightness(128),
manual Color(255, 0, 0). -/
theorem C4_power_brightness_color_effect_order (caps : Capabilities)
    (catalog : Catalog) (pm : List Nat → List (List Nat)) (intent : Intent)
    (s0 : EntityState)
    (hb : ∀ v ∈ intent.brightness, v ≤ 255)
    (hc : ∀ c ∈ intent.rgbColor, c.1 ≤ 255 ∧ c.2.1 ≤ 255 ∧ c.2.2 ≤ 255)
    (heff : (∀ i0 i1 i2 i3, intent.effect ≠ .indexes i0 i1 i2 i3) ∨
      (∃ i0 i1 i2 i3 blob, intent.effect = .indexes i0 i1 i2 i3 ∧
        lookupEffect catalog i0 i1 i2 i3 = some blob)) :
    (∃ bf cf ef,
      (buildCommandsAndState caps catalog pm intent s0).2 =
        .ok (powerOnFrame :: ((bf ++ cf) ++ ef)) ∧
      ((intent.brightness = none ∧ bf = []) ∨
        (∃ v c, intent.brightness = some v ∧
          brightnessCommand caps.usePercent v = .ok c ∧ bf = [c])) ∧
      ((intent.rgbColor = none ∧ cf = []) ∨
        (∃ r g b c, intent.rgbColor = some (r, g, b) ∧
          colorCommand caps.isSegmented r g b = .ok c ∧ cf = [c])) ∧
      ((∀ i0 i1 i2 i3, intent.effect ≠ .indexes i0 i1 i2 i3) → ef = []) ∧
      (∀ i0 i1 i2 i3 blob, intent.effect = .indexes i0 i1 i2 i3 →
        lookupEffect catalog i0 i1 i2 i3 = some blob → ef = pm blob)) ∧
    (buildCommandsAndState ⟨false, false⟩ catalog pm
        ⟨some 128, some (255, 0, 0), .absent⟩ s0).2 =
      .ok [powerOnFrame,
           [0x33, 0x04, 0x80, 0, 0, 0, 0, 0, 0, 0, 0, 0, 0, 0, 0, 0, 0,
            0, 0, 0xB7],
           [0x33, 0x05, 0x02, 0xFF, 0, 0, 0, 0, 0, 0, 0, 0, 0, 0, 0, 0,
            0, 0, 0, 0xCB]] := by
  constructor
  · obtain ⟨bf, cf, hbf, hcf, -, habs, hidx⟩ :=
      build_unfold caps catalog pm intent s0 hb hc
    rcases heff with hne | ⟨i0, i1, i2, i3, blob, heq, hlook⟩
    · refine ⟨bf, cf, [], ?_, hbf, hcf, fun _ => rfl, ?_⟩
      · simpa using habs hne
      · intro j0 j1 j2 j3 blob2 heq2 hlook2
        exact absurd heq2 (hne j0 j1 j2 j3)
    · refine ⟨bf, cf, pm blob, ?_, hbf, hcf, ?_, ?_⟩
      · exact (hidx i0 i1 i2 i3 heq).2 blob hlook
      · intro hne
        exact absurd heq (hne i0 i1 i2 i3)
      · intro j0 j1 j2 j3 blob2 heq2 hlook2
        rw [heq] at heq2
        injection heq2 with e0 e1 e2 e3
        subst e0; subst e1; subst e2; subst e3
        rw [hlook] at hlook2
        injection hlook2 with e4
        rw [e4]
  · rfl

/-- Witness for C4: the concrete 3-frame instance of the claim. -/
theorem C4_witness :
    (∃ bf cf ef,
      (buildCommandsAndState ⟨false, false⟩ ⟨[]⟩ (fun _ => [])
          ⟨some 128, some (255, 0, 0), .absent⟩ ⟨none, none, none⟩).2 =
        .ok (powerOnFrame :: ((bf ++ cf) ++ ef)) ∧
      (((⟨some 128, some (255, 0, 0), .absent⟩ : Intent).brightness = none ∧
          bf = []) ∨
        (∃ v c,
          (⟨some 128, some (255, 0, 0), .absent⟩ : Intent).brightness =
            some v ∧
          brightnessCommand false v = .ok c ∧ bf = [c])) ∧
      (((⟨some 128, some (255, 0, 0), .absent⟩ : Intent).rgbColor = none ∧
          cf = []) ∨
        (∃ r g b c,
          (⟨some 128, some (255, 0, 0), .absent⟩ : Intent).rgbColor =
            some (r, g, b) ∧
          colorCommand false r g b = .ok c ∧ cf = [c])) ∧
      ((∀ i0 i1 i2 i3,
          (EffectField.absent : EffectField) ≠ .indexes i0 i1 i2 i3) →
        ef = []) ∧
      (∀ i0 i1 i2 i3 blob,
        (EffectField.absent : EffectField) = .indexes i0 i1 i2 i3 →
        lookupEffect ⟨[]⟩ i0 i1 i2 i3 = some blob → ef = (fun _ => ([] : List (List Nat))) blob)) ∧
    (buildCommandsAndState ⟨false, false⟩ ⟨[]⟩ (fun _ => [])
        ⟨some 128, some (255, 0, 0), .absent⟩ ⟨none, none, none⟩).2 =
      .ok [powerOnFrame,
           [0x33, 0x04, 0x80, 0, 0, 0, 0, 0, 0, 0, 0, 0, 0, 0, 0, 0, 0,
            0, 0, 0xB7],
           [0x33, 0x05, 0x02, 0xFF, 0, 0, 0, 0, 0, 0, 0, 0, 0, 0, 0, 0,
            0, 0, 0, 0xCB]] :=
  C4_power_brightness_color_effect_order ⟨false, false⟩ ⟨[]⟩ (fun _ => [])
    ⟨some 128, some (255, 0, 0), .absent⟩ ⟨none, none, none⟩
    (by simp)
    (by rintro c hcc; simp at hcc; subst hcc
        exact ⟨by decide, by decide, by decide⟩)
    (Or.inl fun i0 i1 i2 i3 h => EffectField.noConfusion h)

set_option maxRecDepth 8192 in
/-- **C5** counterexample: one logical turn-on command with two frames
(Power-on, then Brightness) writes them over two different links — the
delivery loop of lines 179–181 calls `_connectBluetooth` afresh for every
frame, so with each establishment handing back a fresh link the two writes
use links 0 and 1, refuting "all frames of one logical command are sent
over the same established link". -/
theorem C5_counterexample_two_links :
    ((asyncTurnOn envDistinctLinks ⟨false, false⟩ ⟨[]⟩
        ⟨some 128, none, .absent⟩ ⟨none, none, none⟩).2.1.map
      WriteEvent.link) = [0, 1] ∧ (0 : Nat) ≠ 1 :=
  ⟨rfl, by decide⟩

/-- **C5** (amended). Frames of one logical command are delivered in
order, without interleaving, but each frame goes over a freshly
established link (`_connectBluetooth` is called once per frame inside the
loop), so consecutive frames need not share a link: the writes performed
are always a prefix of the command list in order, and when no error aborts
the loop they are exactly the command list. -/
theorem C5_frames_in_order_fresh_links (env : Env)
    (cmds : List (List Nat)) (cctr wctr : Nat) :
    (∃ k, (sendLoop env cmds cctr wctr).1.map WriteEvent.frame =
        cmds.take k) ∧
    ((sendLoop env cmds cctr wctr).2 = none →
      (sendLoop env cmds cctr wctr).1.map WriteEvent.frame = cmds) := by
  induction cmds generalizing cctr wctr with
  | nil => exact ⟨⟨0, rfl⟩, fun _ => rfl⟩
  | cons c rest ih =>
    rcases hcb : connectBluetooth env.connectOutcomes cctr with ⟨r, c2⟩
    rcases r with e | o
    · constructor
      · exact ⟨0, by simp [sendLoop, hcb]⟩
      · intro h
        simp [sendLoop, hcb] at h
    · cases o with
      | none =>
        constructor
        · exact ⟨0, by simp [sendLoop, hcb]⟩
        · intro h
          simp [sendLoop, hcb] at h
      | some link =>
        by_cases hw : env.writeOk wctr
        · obtain ⟨⟨k, hk⟩, hok⟩ := ih c2 (wctr + 1)
          constructor
          · exact ⟨k + 1, by
              simp [sendLoop, hcb, hw, hk, List.take_succ_cons]⟩
          · intro h
            have h2 : (sendLoop env rest c2 (wctr + 1)).2 = none := by
              simpa [sendLoop, hcb, hw] using h
            simp [sendLoop, hcb, hw, hok h2]
        · constructor
          · exact ⟨0, by simp [sendLoop, hcb, hw]⟩
          · intro h
            simp [sendLoop, hcb, hw] at h

/-- Witness for the amended C5: two frames delivered exactly in order. -/
theorem C5_witness :
    (sendLoop envDistinctLinks [[0x01], [0x02]] 0 0).1.map
      WriteEvent.frame = [[0x01], [0x02]] :=
  (C5_frames_in_order_fresh_links envDistinctLinks [[0x01], [0x02]] 0 0).2
    rfl

theorem asyncTurnOn_fst (env : Env) (caps : Capabilities)
    (catalog : Catalog) (intent : Intent) (s0 : EntityState) :
    (asyncTurnOn env caps catalog intent s0).1 =
      (buildCommandsAndState caps catalog env.pm intent s0).1 := by
  unfold asyncTurnOn
  rcases buildCommandsAndState caps catalog env.pm intent s0 with ⟨st, r⟩
  cases r <;> rfl

/-- **C9.** `async_turn_on` performs its entity-state assignments
(`self._state = True` and, when present in the intent, `self._brightness`
and `self._rgb_color`) during command building, before any connection is
attempted or any frame written: the resulting entity state is the same for
every environment (connect outcomes, write outcomes, splitter), so the
updates persist even when effect resolution, connection, or every write
fails — nothing is rolled back on error. -/
theorem C9_state_recorded_before_transport (env env2 : Env)
    (caps : Capabilities) (catalog : Catalog) (intent : Intent)
    (s0 : EntityState)
    (hb : ∀ v ∈ intent.brightness, v ≤ 255)
    (hc : ∀ c ∈ intent.rgbColor, c.1 ≤ 255 ∧ c.2.1 ≤ 255 ∧ c.2.2 ≤ 255) :
    (asyncTurnOn env caps catalog intent s0).1 =
      ⟨some true, intent.brightness.elim s0.brightness some,
        intent.rgbColor.elim s0.rgbColor some⟩ ∧
    (asyncTurnOn env caps catalog intent s0).1 =
      (asyncTurnOn env2 caps catalog intent s0).1 := by
  obtain ⟨bf, cf, -, -, hst, -, -⟩ :=
    build_unfold caps catalog env.pm intent s0 hb hc
  obtain ⟨bf2, cf2, -, -, hst2, -, -⟩ :=
    build_unfold caps catalog env2.pm intent s0 hb hc
  rw [asyncTurnOn_fst env caps catalog intent s0,
    asyncTurnOn_fst env2 caps catalog intent s0, hst, hst2]
  exact ⟨rfl, rfl⟩

/-- Witness for C9: with every connection attempt failing, the entity
state still records on/brightness/color, and equals the state produced
under an environment where everything succeeds. -/
theorem C9_witness :
    (asyncTurnOn envAllFail ⟨false, false⟩ ⟨[]⟩
        ⟨some 10, some (1, 2, 3), .absent⟩ ⟨none, none, none⟩).1 =
      ⟨some true, some 10, some (1, 2, 3)⟩ ∧
    (asyncTurnOn envAllFail ⟨false, false⟩ ⟨[]⟩
        ⟨some 10, some (1, 2, 3), .absent⟩ ⟨none, none, none⟩).1 =
      (asyncTurnOn envDistinctLinks ⟨false, false⟩ ⟨[]⟩
        ⟨some 10, some (1, 2, 3), .absent⟩ ⟨none, none, none⟩).1 :=
  C9_state_recorded_before_transport envAllFail envDistinctLinks
    ⟨false, false⟩ ⟨[]⟩ ⟨some 10, some (1, 2, 3), .absent⟩
    ⟨none, none, none⟩
    (by intro v hv; simp at hv; omega)
    (by rintro c hcc; simp at hcc; subst hcc
        exact ⟨by decide, by decide, by decide⟩)
